import Mathlib

/-!
Verification of the Venspace campaign landing page (`src/app/page.tsx` and the
duplicate component in `src/unnamed/part_000`).  The page is a lead-capture
form with three fields (email, phone, description), a zod validation schema,
and a submission controller that posts to the Zoho Campaigns list-subscribe
endpoint.  The definitions below are a shallow embedding of that code:
strings are Lean `String`s, the zod checks become functions returning the
list of issue messages they raise, the fetch response becomes an explicit
`ApiResponse` record, and the React state updates become pure state
transitions.
-/

namespace Venspace

/-- The form entity: `z.infer<typeof formSchema>` — three string fields. -/
structure FormValues where
  email : String
  phone : String
  description : String
deriving DecidableEq, Repr

/-- `useForm` `defaultValues` from `src/app/page.tsx` lines 54-58:
all three fields start empty at page load. -/
def defaultValues : FormValues := { email := "", phone := "", description := "" }

/-- The values passed to `form.reset` on a successful submission
(`src/app/page.tsx` lines 106-110): note `description` is reset to the
string "Select", not to the page-load default `""`. -/
def resetValues : FormValues := { email := "", phone := "", description := "Select" }

/-- The placeholder text of the description select control
(`SelectValue placeholder="Select"`, `src/app/page.tsx` line 206). -/
def selectPlaceholder : String := "Select"

/-- The three option labels offered by the `SelectContent`
(`src/app/page.tsx` lines 209-219).  The third label carries a trailing
space, exactly as in the `value` attribute of the source. -/
def selectLabels : List String :=
  ["I own a space to share",
   "I am hunting for the perfect space",
   "Both! I own and I am looking "]

/-! ### Validation schema (`formSchema`, `src/app/page.tsx` lines 32-46)

Each zod check is modelled as a function from the field string to the list
of issue messages it produces; zod runs every check of a string schema and
collects all issues, so the lists concatenate. -/

/-- zod issue message of `formSchema.email`. -/
def emailMsg : String := "Please enter a valid email address."

/-- zod issue message of `formSchema.phone.min(10)`. -/
def phoneMinMsg : String := "Phone number must be at least 10 digits"

/-- zod issue message of `formSchema.phone.max(15)`. -/
def phoneMaxMsg : String := "Phone number must be at most 15 digits"

/-- zod issue message of `formSchema.phone.regex`. -/
def phoneRegexMsg : String := "Please enter a valid phone number"

/-- zod issue message of `formSchema.description.min(1)`. -/
def descriptionMsg : String := "Please select what best describes you"

/-- The characters matched by the JavaScript regex class `\s`
(restricted to the ASCII whitespace characters plus NBSP; the remaining
unicode whitespace code points never occur in the strings reasoned about
here). -/
def isSpaceJS (c : Char) : Bool :=
  c = ' ' || c = '\t' || c = '\n' || c = '\r' ||
  c = Char.ofNat 11 || c = Char.ofNat 12 || c = Char.ofNat 160

/-- The character class `[-\s./0-9]` of the phone regex tail. -/
def tailClass (c : Char) : Bool :=
  c = '-' || isSpaceJS c || c = '.' || c = '/' || c.isDigit

/-- Matches the suffix `[)]?[-\s./0-9]*$` of the phone regex against the
remaining characters (existential semantics, as for a backtracking
matcher: either the whole rest is tail characters, or a `)` is consumed
first). -/
def matchAfterDigits (l : List Char) : Bool :=
  l.all tailClass ||
  (match l with
   | ')' :: rest => rest.all tailClass
   | _ => false)

/-- Matches `[0-9]{1,4}[)]?[-\s./0-9]*$` with `n` digits already consumed:
either stop consuming digits now (allowed once at least one digit has been
read) or, below four digits, consume one more. -/
def matchCount : List Char → Nat → Bool
  | [], n => decide (1 ≤ n) && matchAfterDigits []
  | c :: rest, n =>
    (decide (1 ≤ n) && matchAfterDigits (c :: rest)) ||
    (decide (n < 4) && c.isDigit && matchCount rest (n + 1))

/-- Matches `[(]?[0-9]{1,4}[)]?[-\s./0-9]*$`: the opening parenthesis is
optional. -/
def matchOpen (l : List Char) : Bool :=
  matchCount l 0 ||
  (match l with
   | '(' :: rest => matchCount rest 0
   | _ => false)

/-- Full match of the anchored phone regex
`^[+]?[(]?[0-9]{1,4}[)]?[-\s./0-9]*$` from `formSchema.phone`
(`src/app/page.tsx` line 40). -/
def phoneRegexMatch (s : String) : Bool :=
  matchOpen s.data ||
  (match s.data with
   | '+' :: rest => matchOpen rest
   | _ => false)

/-- The phone schema `z.string().min(10).max(15).regex(...)`
(`src/app/page.tsx` lines 36-42): every failing check contributes its
issue message. -/
def phoneCheck (s : String) : List String :=
  (if s.length < 10 then [phoneMinMsg] else []) ++
  (if 15 < s.length then [phoneMaxMsg] else []) ++
  (if phoneRegexMatch s then [] else [phoneRegexMsg])

/-- The description schema `z.string().min(1)`
(`src/app/page.tsx` lines 43-45). -/
def descriptionCheck (s : String) : List String :=
  if s.length < 1 then [descriptionMsg] else []

/-- Splits a character list on a separator character; the resulting
pieces never contain the separator and there is one more piece than
separator occurrences. -/
def splitOnChar : List Char → Char → List (List Char)
  | [], _ => [[]]
  | c :: rest, sep =>
    if c = sep then [] :: splitOnChar rest sep
    else
      match splitOnChar rest sep with
      | h :: t => (c :: h) :: t
      | [] => [[c]]

/-- Modelled from the spec: the email check `z.string().email()` lives in
the zod library, which is not part of this repository; the spec only
requires `email` to "match a standard email grammar".  This model accepts
strings with exactly one `@`, a non-empty local part, and a dotted domain
with non-empty components. -/
def emailOk (s : String) : Bool :=
  match splitOnChar s.data '@' with
  | [lp, dom] =>
    !lp.isEmpty && !dom.isEmpty &&
    decide (2 ≤ (splitOnChar dom '.').length) &&
    (splitOnChar dom '.').all (fun p => !p.isEmpty)
  | _ => false

/-- The email schema `z.string().email({...})`
(`src/app/page.tsx` lines 33-35), over the modelled grammar. -/
def emailCheck (s : String) : List String :=
  if emailOk s then [] else [emailMsg]

/-- All issues the resolver collects for a candidate `FormValues`. -/
def formErrors (v : FormValues) : List String :=
  emailCheck v.email ++ phoneCheck v.phone ++ descriptionCheck v.description

/-- `form.handleSubmit(onSubmit)` invokes `onSubmit` exactly when the
resolver reports no issue. -/
def submitInvoked (v : FormValues) : Bool :=
  (formErrors v).isEmpty

/-! ### Phone input normalization (`src/app/page.tsx` lines 175-182)

The phone `Input`'s `onChange` stores
`e.target.value.replace(/[^\d+-]/g, "")`: every character that is not a
digit, `+` or `-` is deleted. -/

/-- The character class `[\d+-]` kept by the onChange replacement. -/
def phoneKeepChar (c : Char) : Bool :=
  c.isDigit || c = '+' || c = '-'

/-- The value stored in form state after the phone field's `onChange`
normalization. -/
def normalizePhone (s : String) : String :=
  ⟨s.data.filter phoneKeepChar⟩

/-- Spec-side predicate, for comparison with the code: the spec's claimed
shape of the stored phone value, "digits plus an optional leading `+`". -/
def specStoredPhoneShape (s : String) : Bool :=
  match s.data with
  | [] => true
  | c :: rest => (c.isDigit || c = '+') && rest.all Char.isDigit

/-- A string made of decimal digits only. -/
def isDigitString (s : String) : Bool :=
  s.data.all Char.isDigit

/-- Number of decimal digits occurring in a string. -/
def digitCount (s : String) : Nat :=
  (s.data.filter Char.isDigit).length

/-! ### Submission controller (`onSubmit`, `src/app/page.tsx` lines 62-119)

The component state is the two `useState` flags plus the form values held
by react-hook-form.  The awaited fetch response is an explicit record:
`ok` is `response.ok`, `statusField` and `messageField` are the optional
`status` and `message` properties of the parsed JSON body. -/

/-- React state of the `Home` component: form values, the `loading` flag
and the `showSuccess` flag. -/
structure ComponentState where
  values : FormValues
  loading : Bool
  showSuccess : Bool
deriving DecidableEq, Repr

/-- Component state at page load: empty defaults, not loading, no
success banner. -/
def initialState : ComponentState :=
  { values := defaultValues, loading := false, showSuccess := false }

/-- The endpoint's answer as `onSubmit` sees it: `response.ok` and the
parsed JSON body's optional `status` and `message` string properties. -/
structure ApiResponse where
  ok : Bool
  statusField : Option String
  messageField : Option String
deriving DecidableEq, Repr

/-- The error test of `src/app/page.tsx` line 98:
`!response.ok || responseData.status === 'error'`. -/
def respFailed (r : ApiResponse) : Bool :=
  !r.ok || r.statusField == some "error"

/-- The thrown error's message, `responseData.message || 'Subscription
failed'` (line 99): a missing or empty `message` property is falsy in
JavaScript and falls through to the literal. -/
def errMessage (r : ApiResponse) : String :=
  match r.messageField with
  | some m => if m == "" then "Subscription failed" else m
  | none => "Subscription failed"

/-- The `contactinfo` record built at `src/app/page.tsx` lines 67-72:
`Contact Email` always, `Phone` only when the phone string is truthy
(non-empty), `Description` only when it differs from the literal
"Select". -/
def contactInfo (v : FormValues) : List (String × String) :=
  [("Contact Email", v.email)] ++
  (if v.phone != "" then [("Phone", v.phone)] else []) ++
  (if v.description != "Select" then [("Description", v.description)] else [])

/-- JavaScript truthiness of the optional `ZOHO_OAUTH_TOKEN` environment
value: present and non-empty. -/
def tokenTruthy : Option String → Bool
  | some t => t != ""
  | none => false

/-- The headers object of the fetch call (`src/app/page.tsx` lines 87-92):
`Content-Type` always; `Authorization` spread in only when the token is
truthy. -/
def buildHeaders (token : Option String) : List (String × String) :=
  [("Content-Type", "application/json")] ++
  (match token with
   | some t =>
     if t != "" then [("Authorization", "Zoho-oauthtoken " ++ t)] else []
   | none => [])

/-- The single outbound POST request: fixed endpoint URL, the four query
parameters appended at lines 79-82 (the contact record kept structured
rather than URL-encoded), and the headers. -/
structure OutboundRequest where
  url : String
  method : String
  resfmt : String
  listkey : String
  contact : List (String × String)
  source : String
  headers : List (String × String)
deriving DecidableEq, Repr

/-- The request `onSubmit` constructs (`src/app/page.tsx` lines 78-94). -/
def buildRequest (token : Option String) (listKey : String) (v : FormValues) :
    OutboundRequest :=
  { url := "https://campaigns.zoho.com/api/v1.1/json/listsubscribe"
    method := "POST"
    resfmt := "JSON"
    listkey := listKey
    contact := contactInfo v
    source := "WebsiteForm"
    headers := buildHeaders token }

/-- The requests a single `onSubmit` run issues: exactly one fetch,
whatever the token configuration. -/
def requestsIssued (token : Option String) (listKey : String) (v : FormValues) :
    List OutboundRequest :=
  [buildRequest token listKey v]

/-- Whether a request carries an `Authorization` header. -/
def hasAuthHeader (r : OutboundRequest) : Bool :=
  r.headers.any (fun p => p.1 == "Authorization")

/-- State transition of `onSubmit` (`src/app/page.tsx` lines 62-119) once
the response has arrived.  On the error test (line 98) the thrown error is
caught and alerted, the form values are untouched and `showSuccess` keeps
its value; otherwise `showSuccess` is set and the form is reset to
`resetValues`.  The `finally` block sets `loading` back to `false` on both
paths.  The second component is the alert text, `none` when no alert is
shown. -/
def onSubmit (st : ComponentState) (r : ApiResponse) :
    ComponentState × Option String :=
  if respFailed r then
    ({ st with loading := false },
     some ("Subscription failed: " ++ errMessage r))
  else
    ({ values := resetValues, loading := false, showSuccess := true }, none)

/-! ### The stub component (`src/unnamed/part_000` lines 61-74)

The duplicate page holds a synchronous stub `onSubmit`: it logs, sets
`showSuccess` and `loading` to `true`, and resets the form — nothing in
the component ever sets `loading` back to `false`. -/

/-- The stub `onSubmit` of `src/unnamed/part_000`: `setShowSuccess(true)`,
`setLoading(true)`, reset to `{email: "", phone: "", description:
"Select"}`. -/
def onSubmitStub (_st : ComponentState) : ComponentState :=
  { values := resetValues, loading := true, showSuccess := true }

/-- User-driven events of the stub page: typing in a field (the phone
field normalizes through its `onChange`), selecting a description, or
clicking the submit button. -/
inductive Event where
  | setEmail (s : String)
  | setPhone (s : String)
  | setDescription (s : String)
  | submitClick
deriving DecidableEq, Repr

/-- One step of the stub component: field events update form state; the
submit click is a no-op while the button is disabled (`disabled={loading}`,
`src/unnamed/part_000` line 271) or while the resolver reports issues, and
otherwise runs the stub `onSubmit`. -/
def stubStep (st : ComponentState) : Event → ComponentState
  | .setEmail s => { st with values := { st.values with email := s } }
  | .setPhone s => { st with values := { st.values with phone := normalizePhone s } }
  | .setDescription s => { st with values := { st.values with description := s } }
  | .submitClick =>
    if st.loading then st
    else if (formErrors st.values).isEmpty then onSubmitStub st
    else st

/-- The submit button's `disabled` attribute is the `loading` flag. -/
def buttonDisabled (st : ComponentState) : Bool :=
  st.loading

/-! ### Concrete instances used by counterexamples and witnesses -/

/-- The spec's example of valid form values. -/
def exampleValues : FormValues :=
  { email := "a@b.com", phone := "1234567890", description := "I own a space to share" }

/-- Component state right after `onSubmit` starts for `exampleValues`:
the submitted values are in form state and `setLoading(true)` has run. -/
def exampleEntryState : ComponentState :=
  { values := exampleValues, loading := true, showSuccess := false }

/-- Stub-page state with `exampleValues` typed in, before any submit. -/
def stubEntryState : ComponentState :=
  { values := exampleValues, loading := false, showSuccess := false }

/-- A simulated success answer: HTTP OK and a body without an error
status. -/
def okResponse : ApiResponse :=
  { ok := true, statusField := some "success", messageField := none }

/-- A simulated failure answer: non-OK HTTP status with a body message. -/
def errorResponse : ApiResponse :=
  { ok := false, statusField := none, messageField := some "Invalid list key" }

/-! ### Helper lemmas -/

/-- Decimal digits belong to the tail character class `[-\s./0-9]`. -/
theorem all_tailClass_of_digits (l : List Char) (h : l.all Char.isDigit = true) :
    l.all tailClass = true := by
  rw [List.all_eq_true] at h ⊢
  intro c hc
  have hcd := h c hc
  simp only [tailClass]
  simp [hcd]

/-- With one digit already consumed, a tail of tail-class characters is
accepted by the digit loop of the phone regex. -/
theorem matchCount_one_of_tail (l : List Char) (h : l.all tailClass = true) :
    matchCount l 1 = true := by
  cases l with
  | nil => rfl
  | cons c t =>
    simp only [matchCount, matchAfterDigits]
    simp [h]

/-- Every non-empty all-digit string matches the phone regex. -/
theorem phoneRegexMatch_digits (s : String) (hne : s.data ≠ [])
    (h : isDigitString s = true) : phoneRegexMatch s = true := by
  rw [phoneRegexMatch]
  cases hld : s.data with
  | nil => exact absurd hld hne
  | cons c t =>
    rw [isDigitString, hld, List.all_cons, Bool.and_eq_true] at h
    have h1 := matchCount_one_of_tail t (all_tailClass_of_digits t h.2)
    simp [matchOpen, matchCount, h.1, h1]

/-- A string other than `""` has positive length. -/
theorem length_pos_of_ne_empty (s : String) (h : s ≠ "") : 0 < s.length := by
  rcases s with ⟨l⟩
  cases l with
  | nil => exact absurd (by rfl) h
  | cons c t => simp [String.length]

/-- Filtering keeps the count of a kept character. -/
theorem count_filter_keepChar (l : List Char) :
    (l.filter phoneKeepChar).count '-' = l.count '-' := by
  induction l with
  | nil => rfl
  | cons c t ih =>
    by_cases hc : phoneKeepChar c = true
    · rw [List.filter_cons_of_pos hc]
      by_cases hce : c = '-'
      · subst hce; simp [List.count_cons, ih]
      · simp [List.count_cons, hce, ih]
    · rw [List.filter_cons_of_neg (by simpa using hc)]
      have hce : c ≠ '-' := by
        intro he; subst he; exact hc rfl
      simp [List.count_cons, hce, ih]

/-! ### Claim theorems -/

/-- C10: the stored phone value "123-456-78" survives the phone input
normalization unchanged, has length 10 but only 8 digits, and passes
phone validation: the `min(10)`/`max(15)` bounds count separator
characters toward the length and the regex tail `[-\s./0-9]*` accepts an
unbounded run of separators. -/
theorem C10_separator_phone_passes :
    normalizePhone "123-456-78" = "123-456-78" ∧
    ("123-456-78" : String).length = 10 ∧
    digitCount "123-456-78" = 8 ∧
    phoneCheck "123-456-78" = [] := by
  decide

/-- C7: for every all-digit string shorter than 10 characters, phone
validation reports the too-short message (and reports it first); for
every all-digit string longer than 15 characters, the too-long message is
the only issue; the malformed-grammar case carries a third message and
the three messages are pairwise distinct. -/
theorem C7_phone_length_messages (s : String) (hd : isDigitString s = true) :
    (s.length < 10 →
      (phoneCheck s).head? = some phoneMinMsg ∧ phoneMinMsg ∈ phoneCheck s) ∧
    (15 < s.length → phoneCheck s = [phoneMaxMsg]) ∧
    phoneCheck "abcdefghijk" = [phoneRegexMsg] ∧
    (phoneMinMsg ≠ phoneMaxMsg ∧ phoneMinMsg ≠ phoneRegexMsg ∧
      phoneMaxMsg ≠ phoneRegexMsg) := by
  refine ⟨?_, ?_, by decide, by decide⟩
  · intro h
    simp [phoneCheck, h]
  · intro h
    have hne : s.data ≠ [] := by
      intro hnil
      have : s.length = 0 := by
        show s.data.length = 0
        rw [hnil]; rfl
      omega
    have hm := phoneRegexMatch_digits s hne hd
    have h10 : ¬ s.length < 10 := by omega
    simp [phoneCheck, h, h10, hm]

/-- C7 witness: "123" is an all-digit string of length below 10, and the
too-short message is among its phone validation issues. -/
theorem C7_phone_length_messages_witness :
    isDigitString "123" = true ∧ ("123" : String).length < 10 ∧
    phoneMinMsg ∈ phoneCheck "123" :=
  ⟨by decide, by decide,
   ((C7_phone_length_messages "123" (by decide)).1 (by decide)).2⟩

/-- C3 counterexample: typing "123-456-7890" into the phone field stores
"123-456-7890" unchanged — the onChange class `[^\d+-]` keeps hyphens —
so the stored value is not of the claimed digits-with-optional-leading-plus
shape. -/
theorem C3_hyphens_kept_cex :
    normalizePhone "123-456-7890" = "123-456-7890" ∧
    specStoredPhoneShape (normalizePhone "123-456-7890") = false := by
  decide

/-- C3 amended: the stored phone value consists only of digits, plus
signs and hyphens; spaces, parentheses and dots are stripped by the
onChange normalization, but hyphens (and non-leading plus signs) are
retained — every hyphen of the typed string survives. -/
theorem C3_normalization_shape (s : String) :
    (normalizePhone s).data.all phoneKeepChar = true ∧
    (normalizePhone s).data.count '-' = s.data.count '-' ∧
    (normalizePhone s).data.all
      (fun c => !(c == ' ' || c == '(' || c == ')' || c == '.')) = true := by
  refine ⟨?_, ?_, ?_⟩
  · rw [List.all_eq_true]
    intro c hc
    exact List.of_mem_filter hc
  · exact count_filter_keepChar s.data
  · rw [List.all_eq_true]
    intro c hc
    have hk : phoneKeepChar c = true := List.of_mem_filter hc
    simp only [Bool.not_eq_true']
    rcases hsp : (c == ' ' || c == '(' || c == ')' || c == '.') with _ | _
    · rfl
    · exfalso
      simp only [Bool.or_eq_true, beq_iff_eq] at hsp
      rcases hsp with ((h | h) | h) | h <;> subst h <;> exact absurd hk (by decide)

/-- C4 counterexample: the non-empty string "anything else" is not one of
the three select labels, yet the description schema accepts it. -/
theorem C4_nonlabel_accepted_cex :
    descriptionCheck "anything else" = [] ∧
    selectLabels.contains "anything else" = false := by
  decide

/-- C4 amended: description validation only tests non-emptiness
(`min(1)`): every non-empty string passes, the empty string fails with
the select message, and in particular every select label passes. -/
theorem C4_description_nonempty (s : String) (h : s ≠ "") :
    descriptionCheck s = [] ∧
    descriptionCheck "" = [descriptionMsg] ∧
    (selectLabels.all fun l => (descriptionCheck l).isEmpty) = true := by
  have hlen := length_pos_of_ne_empty s h
  refine ⟨?_, by decide, by decide⟩
  rw [descriptionCheck, if_neg (by omega)]

/-- C4 witness: the out-of-set non-empty string "anything" passes the
description schema. -/
theorem C4_description_nonempty_witness :
    descriptionCheck "anything" = [] :=
  (C4_description_nonempty "anything" (by decide)).1

/-- C2 counterexample: after a successful submission's reset the
description field holds the placeholder string "Select"; description
validation accepts it, and full validation accepts values carrying it, so
submit is invoked on such values. -/
theorem C2_placeholder_passes_cex :
    resetValues.description = selectPlaceholder ∧
    descriptionCheck selectPlaceholder = [] ∧
    submitInvoked
      { email := "a@b.com", phone := "1234567890", description := "Select" } = true := by
  decide

/-- C2 amended: description validation fails exactly on the empty string.
At page load the default description is `""` and validation fails (so
submit is not invoked); but after a successful submission's reset the
stored description is the placeholder string "Select", which passes the
`min(1)` check. -/
theorem C2_empty_description_blocks (v : FormValues) (h : v.description = "") :
    descriptionCheck v.description = [descriptionMsg] ∧
    submitInvoked v = false ∧
    defaultValues.description = "" ∧
    resetValues.description = selectPlaceholder ∧
    descriptionCheck resetValues.description = [] := by
  refine ⟨by rw [h]; rfl, ?_, rfl, rfl, by decide⟩
  simp [submitInvoked, formErrors, h, descriptionCheck]

/-- C2 witness: at the page-load defaults the description is empty and
submit is not invoked. -/
theorem C2_empty_description_blocks_witness :
    submitInvoked defaultValues = false :=
  (C2_empty_description_blocks defaultValues rfl).2.1

/-- C1 counterexample: on a simulated success response for the spec's
example submission, the controller shows success but resets the
description field to "Select", not to the page-load default `""` — the
post-reset values differ from the defaults the form is created with. -/
theorem C1_reset_not_defaults_cex :
    (onSubmit exampleEntryState okResponse).1.showSuccess = true ∧
    (onSubmit exampleEntryState okResponse).1.values.description = "Select" ∧
    defaultValues.description = "" ∧
    (onSubmit exampleEntryState okResponse).1.values ≠ defaultValues := by
  decide

/-- C1 amended: on every success response the controller transitions to
success and resets email and phone to their page-load defaults `""`, but
it resets description to the placeholder string "Select" rather than to
its page-load default `""`; no alert is raised. -/
theorem C1_success_resets (st : ComponentState) (r : ApiResponse)
    (h : respFailed r = false) :
    (onSubmit st r).1.showSuccess = true ∧
    (onSubmit st r).1.values = resetValues ∧
    (onSubmit st r).2 = none ∧
    resetValues.email = defaultValues.email ∧
    resetValues.phone = defaultValues.phone ∧
    resetValues.description = selectPlaceholder := by
  refine ⟨?_, ?_, ?_, rfl, rfl, rfl⟩ <;> simp [onSubmit, h]

/-- C1 witness: the simulated success response passes the error test, and
the run from the example entry state ends with the reset values. -/
theorem C1_success_resets_witness :
    (onSubmit exampleEntryState okResponse).1.values = resetValues :=
  (C1_success_resets exampleEntryState okResponse (by decide)).2.1

/-- C5: whatever the response, the `finally` block leaves the `loading`
flag false once the submission flow completes — in particular after a
successful submission. -/
theorem C5_loading_false_after_flow (st : ComponentState) (r : ApiResponse) :
    (onSubmit st r).1.loading = false := by
  rw [onSubmit]
  split <;> rfl

/-- C6: on a non-OK HTTP status or a body whose status field is "error",
the controller alerts the subscription-failure message, leaves all form
fields unchanged, and does not change the success flag (so state does not
become success). -/
theorem C6_error_leaves_fields (st : ComponentState) (r : ApiResponse)
    (h : r.ok = false ∨ r.statusField = some "error") :
    (onSubmit st r).1.values = st.values ∧
    (onSubmit st r).1.showSuccess = st.showSuccess ∧
    (onSubmit st r).2 = some ("Subscription failed: " ++ errMessage r) := by
  have hf : respFailed r = true := by
    rcases h with h | h <;> simp [respFailed, h]
  simp [onSubmit, hf]

/-- C6 witness: a non-OK response leaves the example submission's fields
unchanged and raises the alert built from the body message. -/
theorem C6_error_leaves_fields_witness :
    (onSubmit exampleEntryState errorResponse).1.values = exampleEntryState.values ∧
    (onSubmit exampleEntryState errorResponse).2 =
      some ("Subscription failed: " ++ errMessage errorResponse) :=
  ⟨(C6_error_leaves_fields exampleEntryState errorResponse (Or.inl rfl)).1,
   (C6_error_leaves_fields exampleEntryState errorResponse (Or.inl rfl)).2.2⟩

/-- C8: the Authorization header is attached exactly when the configured
token is truthy (present and non-empty), and a single request is issued
whatever the token configuration — no token just omits the header. -/
theorem C8_auth_header_iff_token (token : Option String) (listKey : String)
    (v : FormValues) :
    hasAuthHeader (buildRequest token listKey v) = tokenTruthy token ∧
    (requestsIssued token listKey v).length = 1 := by
  refine ⟨?_, rfl⟩
  rcases token with _ | t
  · rfl
  · by_cases ht : t = ""
    · subst ht; rfl
    · simp [hasAuthHeader, buildRequest, buildHeaders, tokenTruthy, ht]

/-- C9: in the stub page, a first enabled submit on valid values sets
`loading` to true, and from any state with `loading` true every sequence
of further events keeps `loading` true — no code path resets it — so the
submit button, whose disabled attribute is the `loading` flag, stays
disabled for the rest of the session. -/
theorem C9_stub_loading_sticks :
    (∀ st : ComponentState, st.loading = false →
      (formErrors st.values).isEmpty = true →
      (stubStep st .submitClick).loading = true) ∧
    (∀ (st : ComponentState) (es : List Event), st.loading = true →
      (es.foldl stubStep st).loading = true ∧
      buttonDisabled (es.foldl stubStep st) = true) := by
  constructor
  · intro st h hv
    simp [stubStep, h, hv, onSubmitStub]
  · intro st es h
    suffices hs : (es.foldl stubStep st).loading = true from ⟨hs, hs⟩
    induction es generalizing st with
    | nil => exact h
    | cons e t ih =>
      apply ih
      cases e <;> simp [stubStep, h]

/-- C9 witness: submitting the example values on the stub page sets
`loading`, and it is still set (button still disabled) after further
typing and another submit click. -/
theorem C9_stub_loading_sticks_witness :
    (stubStep stubEntryState .submitClick).loading = true ∧
    (([Event.setPhone "123", Event.submitClick].foldl stubStep
        (onSubmitStub stubEntryState)).loading = true) ∧
    buttonDisabled ([Event.setPhone "123", Event.submitClick].foldl stubStep
        (onSubmitStub stubEntryState)) = true :=
  ⟨C9_stub_loading_sticks.1 stubEntryState rfl (by decide),
   (C9_stub_loading_sticks.2 (onSubmitStub stubEntryState)
      [Event.setPhone "123", Event.submitClick] rfl).1,
   (C9_stub_loading_sticks.2 (onSubmitStub stubEntryState)
      [Event.setPhone "123", Event.submitClick] rfl).2⟩

end Venspace
